import Mathlib

/-!
Shallow embedding of the `barter` trading-engine core (`src/engine/mod.rs`):
the typestate `Trader`/`Engine` state machine, its builder, and the contracts
of the transition phases. The `Engine` enum, its `next`/`run` dispatch, and
`EngineBuilder` are translated directly from `src/engine/mod.rs`. The phase
payload types and the transition bodies (`Trader::init`, `Trader::next_event`,
`Trader::update`, `Trader::execute_manual_command`) live in the repository's
`src/engine/state/` modules and `src/event.rs` / `src/portfolio.rs`, which are
not part of the provided sources; those are modelled from the spec and carry a
doc comment saying so.

Conventions:
- The event feed (a channel in the code) is modelled as the list of items it
  will yield, in order; the empty list models the closed/exhausted feed.
- The unbounded execution-request sender is modelled as the list of requests
  queued so far (an outbox); sends append and never fail in the core's view.
- `Engine.next` returns `Option`: `none` models a panic. The only panics in
  the dispatch are the two `todo!()` arms for the GenerateOrder phases in
  `src/engine/mod.rs` lines 91-96.
-/

namespace Barter

/-- Exchange identifier (external `barter_integration::model::Exchange`, opaque
to the core; modelled as a string). -/
abbrev Exchange := String

/-- Instrument identifier (external `barter_integration::model::Instrument`,
opaque to the core; modelled as a string). -/
abbrev Instrument := String

/-- The instrument universe `HashMap<Exchange, Vec<Instrument>>`, modelled as an
association list (the core only carries it through, never rearranges it). -/
abbrev Instruments := List (Exchange × List Instrument)

/-- Modelled from the spec (§4.7, §6): `crate::event::Command` is absent from
the provided sources. Closed set of operator commands: manual order request,
position-close request, cancel-order request, shutdown request. -/
inductive Command where
  | manualOrder
  | closePosition
  | cancelOrder
  | shutdown
deriving DecidableEq, Repr

/-- Modelled from the spec (§6): one tagged item of the multiplexed event feed,
exactly one of market event, account event, operator command. `M` is the
external `MarketEvent` type, `A` the external `AccountEvent` type. -/
inductive FeedItem (M A : Type) where
  | market (event : M)
  | account (event : A)
  | command (cmd : Command)
deriving DecidableEq, Repr

/-- Modelled from the spec (§6): `crate::event::EventFeed` is absent from the
provided sources. An ordered source yielding tagged items with a terminal
closed signal: modelled as the list of items it will yield; `[]` is closed. -/
abbrev EventFeed (M A : Type) := List (FeedItem M A)

/-- Outbound message describing an order action (external
`barter_execution` / `crate::execution::ExecutionRequest`, opaque to the core;
modelled as an opaque payload). -/
structure ExecutionRequest where
  payload : Nat
deriving DecidableEq, Repr

/-- `engine::error::EngineError`: closed taxonomy, currently only
`BuilderIncomplete(field-name)`. -/
inductive EngineError where
  | BuilderIncomplete (field : String)
deriving DecidableEq, Repr

/-- Modelled from the spec (§3, and the construction in
`EngineBuilder::build`): the `Initialise<Portfolio>` phase payload holds the
instrument universe (the `PhantomData` marker is dropped). -/
structure Initialise (Portfolio : Type) where
  instruments : Instruments
deriving DecidableEq

/-- Modelled from the spec (§3): the `Consume<Portfolio>` phase payload holds
the live Portfolio. -/
structure Consume (Portfolio : Type) where
  portfolio : Portfolio
deriving DecidableEq

/-- Modelled from the spec (§3): the `UpdateFromMarket<Portfolio>` phase
payload holds the live Portfolio (the event being applied is carried beside
the Trader in the `Engine::UpdateFromMarket` variant). -/
structure UpdateFromMarket (Portfolio : Type) where
  portfolio : Portfolio
deriving DecidableEq

/-- Modelled from the spec (§3): the `UpdateFromAccount<Portfolio>` phase
payload holds the live Portfolio. -/
structure UpdateFromAccount (Portfolio : Type) where
  portfolio : Portfolio
deriving DecidableEq

/-- Modelled from the spec (§3): the `ExecuteCommand<Portfolio>` phase payload
holds the live Portfolio (the command is carried beside the Trader in the
`Engine::ExecuteCommand` variant). -/
structure ExecuteCommand (Portfolio : Type) where
  portfolio : Portfolio
deriving DecidableEq

/-- Order-origin tag of the GenerateOrder phase: `Algorithmic`
(strategy-driven) or `Manual` (operator-driven). -/
inductive OrderKind where
  | algorithmic
  | manual
deriving DecidableEq, Repr

/-- Modelled from the spec (§3): `GenerateOrder<State>` is parameterised only
by the order-origin tag. Note that in the `Engine` enum of
`src/engine/mod.rs` the type `GenerateOrder<Algorithmic>` is not given the
`Portfolio` type parameter, so this phase payload structurally cannot hold the
Portfolio. -/
structure GenerateOrder (kind : OrderKind)
deriving DecidableEq

/-- Modelled from the spec (§3): the `Terminate` phase payload is terminal and
carries no further mutable state. -/
structure Terminate
deriving DecidableEq

/-- `Trader<Strategy, State>` from `src/engine/mod.rs`: owns the event feed,
the strategy instance, the execution-request sender (modelled as the outbox
list of queued requests), and the phase-specific state. -/
structure Trader (M A Strategy State : Type) where
  feed : EventFeed M A
  strategy : Strategy
  execution_tx : List ExecutionRequest
  state : State
deriving DecidableEq

/-- Transfer the Trader identity (feed, strategy, sender) unchanged into a new
phase state, as every transition in the code does by moving the fields. -/
def Trader.withState (t : Trader M A Strategy St) (s : St2) :
    Trader M A Strategy St2 :=
  { feed := t.feed, strategy := t.strategy, execution_tx := t.execution_tx,
    state := s }

/-- Transfer the Trader identity into a new phase state while also recording
that one feed item was consumed: the remaining feed replaces the old one. -/
def Trader.withFeedState (t : Trader M A Strategy St)
    (remaining : EventFeed M A) (s : St2) : Trader M A Strategy St2 :=
  { feed := remaining, strategy := t.strategy,
    execution_tx := t.execution_tx, state := s }

/-- The `Engine<Strategy, Portfolio>` enum of `src/engine/mod.rs`: one variant
per phase, each wrapping a `Trader` at that phase plus the event payload the
variant carries in the code. -/
inductive Engine (M A Strategy Portfolio : Type) where
  | initialise (trader : Trader M A Strategy (Initialise Portfolio))
  | consume (trader : Trader M A Strategy (Consume Portfolio))
  | updateFromMarket
      (pair : Trader M A Strategy (UpdateFromMarket Portfolio) × M)
  | generateOrder
      (trader : Trader M A Strategy (GenerateOrder OrderKind.algorithmic))
  | generateOrderManual
      (pair : Trader M A Strategy (GenerateOrder OrderKind.manual) × Unit)
  | updateFromAccount
      (pair : Trader M A Strategy (UpdateFromAccount Portfolio) × A)
  | executeCommand
      (pair : Trader M A Strategy (ExecuteCommand Portfolio) × Command)
  | terminate (trader : Trader M A Strategy Terminate)
deriving DecidableEq

/-- Modelled from the spec (§6): the Portfolio capability the code consumes as
the `Initialiser`, `MarketUpdater` and `AccountUpdater` traits
(`crate::portfolio`, absent from the provided sources):
`init(instrument-universe) -> Portfolio | Error`;
`apply_market(Portfolio, MarketEvent) -> (Portfolio, optional signal) | Error`;
`apply_account(Portfolio, AccountEvent) -> Portfolio | Error`.
`S` is the opaque decision-signal type. -/
structure PortfolioOps (P M A S : Type) where
  init : Instruments → Except String P
  apply_market : P → M → Except String (P × Option S)
  apply_account : P → A → Except String P

/-- Modelled from the spec (§4.2, §7): `Trader::init` (in the absent
`src/engine/state/mod.rs`) converts the instrument universe into a live
Portfolio via the capability's initialisation operation. Success transitions
to Consume with the new Portfolio; an initialisation error is fatal and, per
§7's propagation policy, short-circuits directly to Terminate. -/
def Trader.init (ops : PortfolioOps P M A S)
    (t : Trader M A Strategy (Initialise P)) : Engine M A Strategy P :=
  match ops.init t.state.instruments with
  | Except.ok p => Engine.consume (t.withState { portfolio := p })
  | Except.error _ => Engine.terminate (t.withState {})

/-- Modelled from the spec (§4.3): `Trader::next_event` (in the absent
`src/engine/state/consume.rs`) pulls exactly one item from the feed and routes
it by tag; a closed/exhausted feed is an implicit shutdown to Terminate. -/
def Trader.next_event (t : Trader M A Strategy (Consume P)) :
    Engine M A Strategy P :=
  match t.feed with
  | [] => Engine.terminate (t.withState {})
  | FeedItem.market event :: remaining =>
      Engine.updateFromMarket
        (t.withFeedState remaining { portfolio := t.state.portfolio }, event)
  | FeedItem.account event :: remaining =>
      Engine.updateFromAccount
        (t.withFeedState remaining { portfolio := t.state.portfolio }, event)
  | FeedItem.command cmd :: remaining =>
      Engine.executeCommand
        (t.withFeedState remaining { portfolio := t.state.portfolio }, cmd)

/-- Modelled from the spec (§4.4, §7): `Trader::update` on the
UpdateFromMarket typestate (in the absent `src/engine/state/market.rs`)
applies the market event through the capability. A decision signal transitions
to GenerateOrder(Algorithmic) (whose payload structurally cannot carry the
Portfolio, see `GenerateOrder`); no signal returns to Consume with the updated
Portfolio; a per-event error is recoverable and returns to Consume with the
Portfolio unchanged. -/
def Trader.updateMarket (ops : PortfolioOps P M A S)
    (t : Trader M A Strategy (UpdateFromMarket P)) (market : M) :
    Engine M A Strategy P :=
  match ops.apply_market t.state.portfolio market with
  | Except.ok (_, some _) => Engine.generateOrder (t.withState {})
  | Except.ok (p, none) => Engine.consume (t.withState { portfolio := p })
  | Except.error _ =>
      Engine.consume (t.withState { portfolio := t.state.portfolio })

/-- Modelled from the spec (§4.6, §7): `Trader::update` on the
UpdateFromAccount typestate (in the absent `src/engine/state/account.rs`)
applies the account event through the capability and returns to Consume with
the reconciled Portfolio; a per-event error is recoverable and returns to
Consume with the Portfolio unchanged. -/
def Trader.updateAccount (ops : PortfolioOps P M A S)
    (t : Trader M A Strategy (UpdateFromAccount P)) (account : A) :
    Engine M A Strategy P :=
  match ops.apply_account t.state.portfolio account with
  | Except.ok p => Engine.consume (t.withState { portfolio := p })
  | Except.error _ =>
      Engine.consume (t.withState { portfolio := t.state.portfolio })

/-- Modelled from the spec (§4.7): `Trader::execute_manual_command` (in the
absent `src/engine/state/command.rs`): a manual order request routes to
GenerateOrder(Manual); shutdown transitions directly to Terminate; the other
commands perform their effect and return to Consume. -/
def Trader.execute_manual_command
    (t : Trader M A Strategy (ExecuteCommand P)) (command : Command) :
    Engine M A Strategy P :=
  match command with
  | Command.manualOrder =>
      Engine.generateOrderManual (t.withState {}, ())
  | Command.closePosition =>
      Engine.consume (t.withState { portfolio := t.state.portfolio })
  | Command.cancelOrder =>
      Engine.consume (t.withState { portfolio := t.state.portfolio })
  | Command.shutdown => Engine.terminate (t.withState {})

/-- `Engine::next` from `src/engine/mod.rs` lines 80-107: the single dispatch
over the phase tag. `none` models a panic: the `GenerateOrder` and
`GenerateOrderManual` arms are `todo!()` in the source and panic at runtime;
every other arm delegates to the Trader transition for that typestate, and the
`Terminate` arm rebuilds `Terminate` with the same Trader. -/
def Engine.next (ops : PortfolioOps P M A S) :
    Engine M A Strategy P → Option (Engine M A Strategy P)
  | Engine.initialise trader => some (trader.init ops)
  | Engine.consume trader => some trader.next_event
  | Engine.updateFromMarket (trader, market) =>
      some (trader.updateMarket ops market)
  | Engine.generateOrder _ => none
  | Engine.generateOrderManual (_, _) => none
  | Engine.updateFromAccount (trader, account) =>
      some (trader.updateAccount ops account)
  | Engine.executeCommand (trader, command) =>
      some (trader.execute_manual_command command)
  | Engine.terminate trader => some (Engine.terminate trader)

/-- The `if let Self::Terminate(_)` test inside `Engine::run`. -/
def Engine.isTerminate : Engine M A Strategy P → Bool
  | Engine.terminate _ => true
  | _ => false

/-- `Engine::run` from `src/engine/mod.rs` lines 68-78: loop `next` and break
as soon as the transition produced a Terminate-phase engine, returning it.
The loop is fuel-indexed so the embedding is total: `none` means the fuel ran
out before Terminate was produced (or a `todo!()` arm panicked). -/
def Engine.runFuel (ops : PortfolioOps P M A S) :
    Nat → Engine M A Strategy P → Option (Engine M A Strategy P)
  | 0, _ => none
  | Nat.succ fuel, e =>
      match e.next ops with
      | none => none
      | some e2 =>
          if e2.isTerminate then some e2 else Engine.runFuel ops fuel e2

/-- Iterating `Engine::next` a fixed number of times (`none` once a `todo!()`
arm panics). Used to phrase reachability of the Terminate phase. -/
def Engine.iterate (ops : PortfolioOps P M A S) :
    Nat → Engine M A Strategy P → Option (Engine M A Strategy P)
  | 0, e => some e
  | Nat.succ n, e => (e.next ops).bind (Engine.iterate ops n)

/-- Phase tags of the state machine, one per `Engine` variant. -/
inductive Phase where
  | initialise
  | consume
  | updateFromMarket
  | generateOrder
  | generateOrderManual
  | updateFromAccount
  | executeCommand
  | terminate
deriving DecidableEq, Repr

/-- The phase tag of an `Engine` value. -/
def Engine.phase : Engine M A Strategy P → Phase
  | Engine.initialise _ => Phase.initialise
  | Engine.consume _ => Phase.consume
  | Engine.updateFromMarket _ => Phase.updateFromMarket
  | Engine.generateOrder _ => Phase.generateOrder
  | Engine.generateOrderManual _ => Phase.generateOrderManual
  | Engine.updateFromAccount _ => Phase.updateFromAccount
  | Engine.executeCommand _ => Phase.executeCommand
  | Engine.terminate _ => Phase.terminate

/-- The state table of spec §4, written from the spec's words:
Initialise→{Consume}; Consume→{UpdateFromMarket, UpdateFromAccount,
ExecuteCommand, Terminate}; UpdateFromMarket→{GenerateOrder(Algorithmic),
Consume}; GenerateOrder(*)→{Consume}; UpdateFromAccount→{Consume};
ExecuteCommand→{GenerateOrder(Manual), Consume, Terminate};
Terminate→{Terminate}. -/
def legalSucc : Phase → Phase → Bool
  | Phase.initialise, Phase.consume => true
  | Phase.consume, Phase.updateFromMarket => true
  | Phase.consume, Phase.updateFromAccount => true
  | Phase.consume, Phase.executeCommand => true
  | Phase.consume, Phase.terminate => true
  | Phase.updateFromMarket, Phase.generateOrder => true
  | Phase.updateFromMarket, Phase.consume => true
  | Phase.generateOrder, Phase.consume => true
  | Phase.generateOrderManual, Phase.consume => true
  | Phase.updateFromAccount, Phase.consume => true
  | Phase.executeCommand, Phase.generateOrderManual => true
  | Phase.executeCommand, Phase.consume => true
  | Phase.executeCommand, Phase.terminate => true
  | Phase.terminate, Phase.terminate => true
  | _, _ => false

/-- The state table amended with the one extra edge the code (as modelled from
§7's propagation policy) can take: Initialise→Terminate when Portfolio
initialisation fails. -/
def legalSuccAmended (a b : Phase) : Bool :=
  legalSucc a b ||
    (decide (a = Phase.initialise) && decide (b = Phase.terminate))

/-- `EngineBuilder<Strategy, Portfolio>` from `src/engine/mod.rs`
lines 110-118 (the `PhantomData` marker is dropped). -/
structure EngineBuilder (M A Strategy P : Type) where
  feed : Option (EventFeed M A)
  strategy : Option Strategy
  execution_tx : Option (List ExecutionRequest)
  instruments : Option Instruments
deriving DecidableEq

/-- `EngineBuilder::new`: every field starts absent. -/
def EngineBuilder.new : EngineBuilder M A Strategy P :=
  { feed := none, strategy := none, execution_tx := none, instruments := none }

/-- `EngineBuilder::feed`: chained configuration call, sets only the feed. -/
def EngineBuilder.setFeed (b : EngineBuilder M A Strategy P)
    (value : EventFeed M A) : EngineBuilder M A Strategy P :=
  { b with feed := some value }

/-- `EngineBuilder::strategy`: chained configuration call, sets only the
strategy. -/
def EngineBuilder.setStrategy (b : EngineBuilder M A Strategy P)
    (value : Strategy) : EngineBuilder M A Strategy P :=
  { b with strategy := some value }

/-- `EngineBuilder::execution_tx`: chained configuration call, sets only the
execution-request sender. -/
def EngineBuilder.setExecutionTx (b : EngineBuilder M A Strategy P)
    (value : List ExecutionRequest) : EngineBuilder M A Strategy P :=
  { b with execution_tx := some value }

/-- `EngineBuilder::instruments`: chained configuration call, sets only the
instrument universe. -/
def EngineBuilder.setInstruments (b : EngineBuilder M A Strategy P)
    (value : Instruments) : EngineBuilder M A Strategy P :=
  { b with instruments := some value }

/-- `EngineBuilder::build` from `src/engine/mod.rs` lines 162-172: the struct
literal evaluates `feed`, then `strategy`, then `execution_tx`, then the
`Initialise` state's `instruments`, each with
`ok_or(EngineError::BuilderIncomplete(field))?`; the `?` on the first absent
field in that order aborts with its error, and with all present it returns an
Initialise-phase Engine holding the configured instrument universe. The `?`
chain is translated as nested matches. -/
def EngineBuilder.build (b : EngineBuilder M A Strategy P) :
    Except EngineError (Engine M A Strategy P) :=
  match b.feed with
  | none => Except.error (EngineError.BuilderIncomplete "feed")
  | some feed =>
    match b.strategy with
    | none => Except.error (EngineError.BuilderIncomplete "strategy")
    | some strategy =>
      match b.execution_tx with
      | none => Except.error (EngineError.BuilderIncomplete "execution_tx")
      | some tx =>
        match b.instruments with
        | none => Except.error (EngineError.BuilderIncomplete "instruments")
        | some instruments =>
            Except.ok (Engine.initialise
              { feed := feed, strategy := strategy, execution_tx := tx,
                state := { instruments := instruments } })

/-- Spec-side definition, written from the claim's words: the first missing
required field of a builder in the fixed check order feed, then strategy, then
execution sender, then instrument universe. -/
def firstMissingField (b : EngineBuilder M A Strategy P) : Option String :=
  if b.feed.isNone then some "feed"
  else if b.strategy.isNone then some "strategy"
  else if b.execution_tx.isNone then some "execution_tx"
  else if b.instruments.isNone then some "instruments"
  else none

/-! Concrete instantiation used to evaluate the machine on explicit inputs:
market events, account events and portfolios are naturals, the strategy is a
unit value, the decision signal is a unit value. -/

/-- Concrete Portfolio capability where every operation succeeds: the
portfolio is a running total of the event values, no decision signal. -/
def opsNat : PortfolioOps Nat Nat Nat Unit :=
  { init := fun _ => Except.ok 0,
    apply_market := fun p m => Except.ok (p + m, none),
    apply_account := fun p a => Except.ok (p + a) }

/-- Concrete Portfolio capability whose initialisation operation reports an
error (e.g. a duplicate instrument). -/
def opsInitFail : PortfolioOps Nat Nat Nat Unit :=
  { init := fun _ => Except.error "duplicate instrument",
    apply_market := fun p _ => Except.ok (p, none),
    apply_account := fun p _ => Except.ok p }

/-- Concrete Portfolio capability whose market-update operation rejects every
event as malformed. -/
def opsMarketFail : PortfolioOps Nat Nat Nat Unit :=
  { init := fun _ => Except.ok 0,
    apply_market := fun _ _ => Except.error "malformed market event",
    apply_account := fun p a => Except.ok (p + a) }

/-- A concrete instrument universe with one exchange and one instrument. -/
def universeNat : Instruments := [("binance", ["btc_usd"])]

/-- Concrete Initialise-phase Trader. -/
def traderInit : Trader Nat Nat Unit (Initialise Nat) :=
  { feed := [], strategy := (), execution_tx := [],
    state := { instruments := universeNat } }

/-- Concrete Terminate-phase Trader. -/
def traderTermN : Trader Nat Nat Unit Terminate :=
  { feed := [], strategy := (), execution_tx := [], state := {} }

/-- Concrete Consume-phase Trader whose feed is already closed. -/
def traderConsNil : Trader Nat Nat Unit (Consume Nat) :=
  { feed := [], strategy := (), execution_tx := [],
    state := { portfolio := 0 } }

/-- Concrete Consume-phase Trader whose feed yields one market event. -/
def traderConsMarket : Trader Nat Nat Unit (Consume Nat) :=
  { feed := [FeedItem.market 7], strategy := (), execution_tx := [],
    state := { portfolio := 0 } }

/-- Concrete Consume-phase Trader whose feed yields one account event. -/
def traderConsAccount : Trader Nat Nat Unit (Consume Nat) :=
  { feed := [FeedItem.account 3], strategy := (), execution_tx := [],
    state := { portfolio := 0 } }

/-- Concrete Consume-phase Trader whose feed yields one operator command. -/
def traderConsCommand : Trader Nat Nat Unit (Consume Nat) :=
  { feed := [FeedItem.command Command.shutdown], strategy := (),
    execution_tx := [], state := { portfolio := 0 } }

/-- Concrete UpdateFromMarket-phase Trader. -/
def traderUM : Trader Nat Nat Unit (UpdateFromMarket Nat) :=
  { feed := [], strategy := (), execution_tx := [],
    state := { portfolio := 42 } }

/-- Concrete GenerateOrder(Algorithmic)-phase Trader. -/
def traderGenAlg : Trader Nat Nat Unit (GenerateOrder OrderKind.algorithmic) :=
  { feed := [], strategy := (), execution_tx := [], state := {} }

/-- Concrete builder with every required field configured. -/
def builderComplete : EngineBuilder Nat Nat Unit Nat :=
  { feed := some [], strategy := some (), execution_tx := some [],
    instruments := some universeNat }

/-- Concrete builder with exactly the strategy missing. -/
def builderNoStrategy : EngineBuilder Nat Nat Unit Nat :=
  { feed := some [], strategy := none, execution_tx := some [],
    instruments := some universeNat }

/-! Theorems. First, unfolding helpers for the fuel-indexed run loop. -/

/-- Unfolding lemma: one loop iteration when `next` panicked. -/
theorem runFuel_succ_none (ops : PortfolioOps P M A S) (n : Nat)
    (e : Engine M A Strategy P) (hn : e.next ops = none) :
    Engine.runFuel ops (n + 1) e = none := by
  show (match e.next ops with
    | none => none
    | some e2 =>
        if e2.isTerminate = true then some e2
        else Engine.runFuel ops n e2) = none
  rw [hn]

/-- Unfolding lemma: one loop iteration when `next` produced an engine. -/
theorem runFuel_succ_some (ops : PortfolioOps P M A S) (n : Nat)
    (e e2 : Engine M A Strategy P) (hn : e.next ops = some e2) :
    Engine.runFuel ops (n + 1) e
      = if e2.isTerminate = true then some e2
        else Engine.runFuel ops n e2 := by
  show (match e.next ops with
    | none => none
    | some e3 =>
        if e3.isTerminate = true then some e3
        else Engine.runFuel ops n e3)
    = if e2.isTerminate = true then some e2 else Engine.runFuel ops n e2
  rw [hn]

/-- C1 (counterexample to the claim as stated): at a concrete
GenerateOrder(Algorithmic)-phase Engine, `next` fails to produce a next Engine
(the arm is `todo!()` and panics, modelled as `none`); and at a concrete
Initialise-phase Engine whose Portfolio initialisation fails, `next` produces
a Terminate-phase Engine although Terminate is not a legal successor of
Initialise in the spec's state table. -/
theorem engine_next_c1_counterexample :
    Engine.next opsNat (Engine.generateOrder traderGenAlg) = none
    ∧ Engine.next opsInitFail (Engine.initialise traderInit)
        = some (Engine.terminate (traderInit.withState {}))
    ∧ legalSucc Phase.initialise Phase.terminate = false :=
  ⟨rfl, rfl, rfl⟩

/-- C1 (amended): for every Engine in a phase other than the two GenerateOrder
phases, `next` returns (without panicking) an Engine whose phase tag is a
legal successor per the spec's state table extended with the one extra edge
Initialise→Terminate, taken on Portfolio-initialisation failure. On the
GenerateOrder phases `next` is an unimplemented `todo!()` and panics. -/
theorem engine_next_phase_legal (ops : PortfolioOps P M A S)
    (e : Engine M A Strategy P)
    (h1 : e.phase ≠ Phase.generateOrder)
    (h2 : e.phase ≠ Phase.generateOrderManual) :
    ∃ e2, e.next ops = some e2
      ∧ legalSuccAmended e.phase e2.phase = true := by
  cases e with
  | initialise t =>
      refine ⟨t.init ops, rfl, ?_⟩
      unfold Trader.init
      cases ops.init t.state.instruments <;> rfl
  | consume t =>
      refine ⟨t.next_event, rfl, ?_⟩
      unfold Trader.next_event
      cases h : t.feed with
      | nil => rfl
      | cons item rest => cases item <;> rfl
  | updateFromMarket pr =>
      obtain ⟨t, m⟩ := pr
      refine ⟨t.updateMarket ops m, rfl, ?_⟩
      unfold Trader.updateMarket
      cases ops.apply_market t.state.portfolio m with
      | error msg => rfl
      | ok v =>
          obtain ⟨p, sig⟩ := v
          cases sig <;> rfl
  | generateOrder t => exact absurd rfl h1
  | generateOrderManual pr => exact absurd rfl h2
  | updateFromAccount pr =>
      obtain ⟨t, a⟩ := pr
      refine ⟨t.updateAccount ops a, rfl, ?_⟩
      unfold Trader.updateAccount
      cases ops.apply_account t.state.portfolio a <;> rfl
  | executeCommand pr =>
      obtain ⟨t, c⟩ := pr
      refine ⟨t.execute_manual_command c, rfl, ?_⟩
      cases c <;> rfl
  | terminate t => exact ⟨Engine.terminate t, rfl, rfl⟩

/-- Witness for the amended C1 theorem at a concrete Consume-phase Engine. -/
theorem engine_next_phase_legal_witness :
    ∃ e2, Engine.next opsNat (Engine.consume traderConsMarket) = some e2
      ∧ legalSuccAmended (Engine.consume traderConsMarket).phase e2.phase
          = true :=
  engine_next_phase_legal opsNat (Engine.consume traderConsMarket)
    (by decide) (by decide)

/-- C2: whenever at least one of the four required fields is absent, `build`
returns `BuilderIncomplete` naming the first missing field in the fixed check
order feed, then strategy, then execution sender, then instrument universe. -/
theorem build_first_missing (b : EngineBuilder M A Strategy P) (name : String)
    (h : firstMissingField b = some name) :
    b.build = Except.error (EngineError.BuilderIncomplete name) := by
  obtain ⟨bf, bs, bt, bi⟩ := b
  cases bf <;> cases bs <;> cases bt <;> cases bi <;>
    simp_all [firstMissingField, EngineBuilder.build]

/-- Witness for C2 at a concrete builder with exactly the strategy missing:
the error names exactly that field. -/
theorem build_first_missing_witness :
    firstMissingField builderNoStrategy = some "strategy"
    ∧ builderNoStrategy.build
        = Except.error (EngineError.BuilderIncomplete "strategy") :=
  ⟨rfl, build_first_missing builderNoStrategy "strategy" rfl⟩

/-- C3: with all four required fields present, `build` succeeds and returns an
Initialise-phase Engine wrapping a Trader holding exactly the configured
feed, strategy and execution sender, with the configured instrument universe
as the phase payload, unmodified. -/
theorem build_complete (b : EngineBuilder M A Strategy P)
    (f : EventFeed M A) (s : Strategy) (tx : List ExecutionRequest)
    (ins : Instruments) (hf : b.feed = some f) (hs : b.strategy = some s)
    (he : b.execution_tx = some tx) (hi : b.instruments = some ins) :
    b.build = Except.ok (Engine.initialise
      { feed := f, strategy := s, execution_tx := tx,
        state := { instruments := ins } }) := by
  unfold EngineBuilder.build
  rw [hf, hs, he, hi]

/-- Witness for C3 at a concrete fully-configured builder. -/
theorem build_complete_witness :
    builderComplete.build = Except.ok (Engine.initialise
      { feed := [], strategy := (), execution_tx := [],
        state := { instruments := universeNat } }) :=
  build_complete builderComplete [] () [] universeNat rfl rfl rfl rfl

/-- C4: `next` on a Terminate-phase Engine returns the same Terminate-phase
Engine with the identical wrapped Trader, and applying `next` once more gives
the same value again, so `next` restricted to Terminate-phase values is
idempotent. -/
theorem next_terminate_identity (ops : PortfolioOps P M A S)
    (t : Trader M A Strategy Terminate) :
    Engine.next ops (Engine.terminate t) = some (Engine.terminate t)
    ∧ (Engine.next ops (Engine.terminate t)).bind (Engine.next ops)
        = some (Engine.terminate t) :=
  ⟨rfl, rfl⟩

/-- C5: `run` (fuel-indexed as `runFuel`) returns exactly when a
Terminate-phase Engine is produced: every value it returns is Terminate-phase,
and if iterating `next` from the given Engine reaches the Terminate phase
after finitely many steps then some fuel makes `runFuel` return. -/
theorem run_reaches_terminate (ops : PortfolioOps P M A S) :
    (∀ (n : Nat) (e e2 : Engine M A Strategy P),
        Engine.runFuel ops n e = some e2 → e2.isTerminate = true)
    ∧ (∀ (k : Nat) (e e2 : Engine M A Strategy P),
        Engine.iterate ops (k + 1) e = some e2 → e2.isTerminate = true →
        ∃ n e3, Engine.runFuel ops n e = some e3 ∧ e3.isTerminate = true) := by
  constructor
  · intro n
    induction n with
    | zero => intro e e2 h; simp [Engine.runFuel] at h
    | succ n ih =>
        intro e e2 h
        cases hn : e.next ops with
        | none => rw [runFuel_succ_none ops n e hn] at h; exact absurd h (by simp)
        | some e4 =>
            rw [runFuel_succ_some ops n e e4 hn] at h
            by_cases ht : e4.isTerminate = true
            · rw [if_pos ht] at h
              injection h with h
              exact h ▸ ht
            · rw [if_neg ht] at h
              exact ih e4 e2 h
  · intro k
    induction k with
    | zero =>
        intro e e2 h hterm
        unfold Engine.iterate at h
        cases hn : e.next ops with
        | none => rw [hn] at h; simp at h
        | some e4 =>
            rw [hn] at h
            replace h : some e4 = some e2 := h
            injection h with h
            refine ⟨1, e2, ?_, hterm⟩
            rw [runFuel_succ_some ops 0 e e2 (h ▸ hn), if_pos hterm]
    | succ k ih =>
        intro e e2 h hterm
        unfold Engine.iterate at h
        cases hn : e.next ops with
        | none => rw [hn] at h; simp at h
        | some e4 =>
            rw [hn] at h
            replace h : Engine.iterate ops (k + 1) e4 = some e2 := h
            by_cases ht : e4.isTerminate = true
            · refine ⟨1, e4, ?_, ht⟩
              rw [runFuel_succ_some ops 0 e e4 hn, if_pos ht]
            · obtain ⟨n, e3, hr, h3⟩ := ih e4 e2 h hterm
              refine ⟨n + 1, e3, ?_, h3⟩
              rw [runFuel_succ_some ops n e e4 hn, if_neg ht]
              exact hr

/-- Witness for C5: applying both halves at concrete inputs — a run of fuel 1
from a Terminate-phase Engine, and a Consume-phase Engine with a closed feed
that reaches Terminate after one `next`. -/
theorem run_reaches_terminate_witness :
    (Engine.terminate traderTermN : Engine Nat Nat Unit Nat).isTerminate
      = true
    ∧ (∃ n e3,
        Engine.runFuel opsNat n (Engine.consume traderConsNil) = some e3
        ∧ e3.isTerminate = true) :=
  ⟨(run_reaches_terminate opsNat).1 1 (Engine.terminate traderTermN)
      (Engine.terminate traderTermN) rfl,
   (run_reaches_terminate opsNat).2 0 (Engine.consume traderConsNil)
      (Engine.terminate (traderConsNil.withState {})) rfl rfl⟩

/-- C6: `next` on a Consume-phase Engine pulls exactly one item from the feed
(the new Trader carries the remaining feed) and routes it exhaustively by tag:
market event to UpdateFromMarket carrying that event, account event to
UpdateFromAccount carrying that event, operator command to ExecuteCommand
carrying that command, closed/exhausted feed to Terminate. -/
theorem consume_dispatch (ops : PortfolioOps P M A S)
    (t : Trader M A Strategy (Consume P)) :
    (t.feed = [] →
      Engine.next ops (Engine.consume t)
        = some (Engine.terminate (t.withState {})))
    ∧ (∀ (m : M) (rest : EventFeed M A),
        t.feed = FeedItem.market m :: rest →
        Engine.next ops (Engine.consume t)
          = some (Engine.updateFromMarket
              (t.withFeedState rest { portfolio := t.state.portfolio }, m)))
    ∧ (∀ (a : A) (rest : EventFeed M A),
        t.feed = FeedItem.account a :: rest →
        Engine.next ops (Engine.consume t)
          = some (Engine.updateFromAccount
              (t.withFeedState rest { portfolio := t.state.portfolio }, a)))
    ∧ (∀ (c : Command) (rest : EventFeed M A),
        t.feed = FeedItem.command c :: rest →
        Engine.next ops (Engine.consume t)
          = some (Engine.executeCommand
              (t.withFeedState rest { portfolio := t.state.portfolio }, c))) := by
  refine ⟨?_, ?_, ?_, ?_⟩
  · intro h
    simp [Engine.next, Trader.next_event, h]
  · intro m rest h
    simp [Engine.next, Trader.next_event, h]
  · intro a rest h
    simp [Engine.next, Trader.next_event, h]
  · intro c rest h
    simp [Engine.next, Trader.next_event, h]

/-- Witness for C6 at four concrete Consume-phase Traders, one per feed
shape. -/
theorem consume_dispatch_witness :
    Engine.next opsNat (Engine.consume traderConsNil)
      = some (Engine.terminate (traderConsNil.withState {}))
    ∧ Engine.next opsNat (Engine.consume traderConsMarket)
      = some (Engine.updateFromMarket
          (traderConsMarket.withFeedState [] { portfolio := 0 }, 7))
    ∧ Engine.next opsNat (Engine.consume traderConsAccount)
      = some (Engine.updateFromAccount
          (traderConsAccount.withFeedState [] { portfolio := 0 }, 3))
    ∧ Engine.next opsNat (Engine.consume traderConsCommand)
      = some (Engine.executeCommand
          (traderConsCommand.withFeedState [] { portfolio := 0 },
           Command.shutdown)) :=
  ⟨(consume_dispatch opsNat traderConsNil).1 rfl,
   (consume_dispatch opsNat traderConsMarket).2.1 7 [] rfl,
   (consume_dispatch opsNat traderConsAccount).2.2.1 3 [] rfl,
   (consume_dispatch opsNat traderConsCommand).2.2.2 Command.shutdown [] rfl⟩

/-- C7 (evaluation of the code at the failing inputs): for every
GenerateOrder-phase Engine, of either origin tag, `next` hits the `todo!()`
arm of `src/engine/mod.rs` lines 91-96 and panics (modelled as `none`) instead
of returning a Consume-phase Engine with the Portfolio unchanged; note also
that the `GenerateOrder` phase payload structurally cannot carry the
Portfolio. -/
theorem generate_order_unimplemented (ops : PortfolioOps P M A S)
    (t : Trader M A Strategy (GenerateOrder OrderKind.algorithmic))
    (t2 : Trader M A Strategy (GenerateOrder OrderKind.manual)) :
    Engine.next ops (Engine.generateOrder t) = none
    ∧ Engine.next ops (Engine.generateOrderManual (t2, ())) = none :=
  ⟨rfl, rfl⟩

/-- C8: when the Portfolio capability rejects the market event as malformed,
`next` on the UpdateFromMarket-phase Engine returns a Consume-phase Engine
whose Portfolio equals the Portfolio from before the event (and whose feed,
strategy and sender are unchanged), and the result is not Terminate, so the
running session is not aborted. -/
theorem market_error_recoverable (ops : PortfolioOps P M A S)
    (t : Trader M A Strategy (UpdateFromMarket P)) (m : M) (msg : String)
    (h : ops.apply_market t.state.portfolio m = Except.error msg) :
    Engine.next ops (Engine.updateFromMarket (t, m))
      = some (Engine.consume
          (t.withState { portfolio := t.state.portfolio }))
    ∧ (Engine.consume
        (t.withState { portfolio := t.state.portfolio })).isTerminate
        = false := by
  refine ⟨?_, rfl⟩
  show some (t.updateMarket ops m) = _
  unfold Trader.updateMarket
  rw [h]

/-- Witness for C8 at a concrete UpdateFromMarket-phase Engine and a
capability that rejects every market event. -/
theorem market_error_recoverable_witness :
    Engine.next opsMarketFail (Engine.updateFromMarket (traderUM, 5))
      = some (Engine.consume (traderUM.withState { portfolio := 42 }))
    ∧ (Engine.consume
        (traderUM.withState { portfolio := 42 })).isTerminate = false :=
  market_error_recoverable opsMarketFail traderUM 5 "malformed market event"
    rfl

/-- C9: `run` (fuel-indexed) on an Engine already in the Terminate phase
returns after the single identity transition of the first loop iteration, for
any fuel of at least one, and the returned Engine wraps the identical Trader:
no feed item is consumed and no ExecutionRequest is sent. -/
theorem run_terminate_immediate (ops : PortfolioOps P M A S)
    (t : Trader M A Strategy Terminate) (n : Nat) :
    Engine.runFuel ops (n + 1) (Engine.terminate t)
      = some (Engine.terminate t) :=
  rfl

/-- C10: each builder configuration call sets only its own field and leaves
the other three unchanged; a repeated call keeps the later value; and `build`
succeeds on any builder whose four required fields are all present. -/
theorem builder_setters (b : EngineBuilder M A Strategy P)
    (f f2 : EventFeed M A) (s s2 : Strategy)
    (tx tx2 : List ExecutionRequest) (ins ins2 : Instruments) :
    ((b.setFeed f).feed = some f ∧ (b.setFeed f).strategy = b.strategy
      ∧ (b.setFeed f).execution_tx = b.execution_tx
      ∧ (b.setFeed f).instruments = b.instruments)
    ∧ ((b.setStrategy s).strategy = some s
      ∧ (b.setStrategy s).feed = b.feed
      ∧ (b.setStrategy s).execution_tx = b.execution_tx
      ∧ (b.setStrategy s).instruments = b.instruments)
    ∧ ((b.setExecutionTx tx).execution_tx = some tx
      ∧ (b.setExecutionTx tx).feed = b.feed
      ∧ (b.setExecutionTx tx).strategy = b.strategy
      ∧ (b.setExecutionTx tx).instruments = b.instruments)
    ∧ ((b.setInstruments ins).instruments = some ins
      ∧ (b.setInstruments ins).feed = b.feed
      ∧ (b.setInstruments ins).strategy = b.strategy
      ∧ (b.setInstruments ins).execution_tx = b.execution_tx)
    ∧ ((b.setFeed f).setFeed f2 = b.setFeed f2
      ∧ (b.setStrategy s).setStrategy s2 = b.setStrategy s2
      ∧ (b.setExecutionTx tx).setExecutionTx tx2 = b.setExecutionTx tx2
      ∧ (b.setInstruments ins).setInstruments ins2 = b.setInstruments ins2)
    ∧ (b.feed.isSome → b.strategy.isSome → b.execution_tx.isSome →
        b.instruments.isSome → ∃ e, b.build = Except.ok e) := by
  obtain ⟨bf, bs, bt, bi⟩ := b
  refine ⟨⟨rfl, rfl, rfl, rfl⟩, ⟨rfl, rfl, rfl, rfl⟩, ⟨rfl, rfl, rfl, rfl⟩,
    ⟨rfl, rfl, rfl, rfl⟩, ⟨rfl, rfl, rfl, rfl⟩, ?_⟩
  intro h1 h2 h3 h4
  cases bf with
  | none => simp at h1
  | some vf =>
      cases bs with
      | none => simp at h2
      | some vs =>
          cases bt with
          | none => simp at h3
          | some vt =>
              cases bi with
              | none => simp at h4
              | some vi => exact ⟨_, rfl⟩

/-- Witness for C10 at the concrete fully-configured builder. -/
theorem builder_setters_witness :
    (builderComplete.feed.isSome ∧ builderComplete.strategy.isSome
      ∧ builderComplete.execution_tx.isSome
      ∧ builderComplete.instruments.isSome)
    ∧ (∃ e, builderComplete.build = Except.ok e) :=
  ⟨⟨rfl, rfl, rfl, rfl⟩,
   (builder_setters builderComplete [] [] () () [] [] [] []).2.2.2.2.2
     rfl rfl rfl rfl⟩

end Barter
